import Mathlib

/-!
Verification development for the 4-seat card-game coordinator
(`src/utils/cards.ts` and the socket handler in `src/pages/index.tsx`).

The TypeScript source is shallowly embedded: every handler becomes a pure
function from the global mutable state (rooms, playedCards, readyForNextGame,
playerPoints, transactions) to a new state plus a list of emitted directives.
`Math.random`-driven shuffling is modelled by quantifying over permutations of
the deck, and `Date.now()` by an explicit timestamp parameter, exactly as the
spec allows ("deterministic given a fixed permutation").
-/

namespace ThirteenCards

/-- Card suits, from `src/utils/cards.ts`. -/
inductive Suit
  | hearts
  | diamonds
  | clubs
  | spades
  | joker
deriving DecidableEq

/-- A card, from `src/utils/cards.ts` (`value` is the string `'2'..'A'` or `'Joker'`). -/
structure Card where
  suit : Suit
  value : String
deriving DecidableEq

/-- The four standard suits iterated by `createDeck`. -/
def standardSuits : List Suit := [Suit.hearts, Suit.diamonds, Suit.clubs, Suit.spades]

/-- The thirteen values iterated by `createDeck`. -/
def standardValues : List String :=
  ["2", "3", "4", "5", "6", "7", "8", "9", "10", "J", "Q", "K", "A"]

/-- `createDeck` from `src/utils/cards.ts`: 52 standard cards then 4 jokers. -/
def createDeck : List Card :=
  (standardSuits.flatMap (fun s => standardValues.map (fun v => ⟨s, v⟩))) ++
    List.replicate 4 ⟨Suit.joker, "Joker"⟩

/-- `GameCards` from `src/utils/cards.ts`; the `players` dictionary is modelled
as an association list in insertion order. -/
structure GameCards where
  players : List (String × List Card)
  communityCards : List Card
deriving DecidableEq

/-- Association-list lookup, modelling a JS object read `obj[k]`. -/
def lookupA {α : Type} (k : String) : List (String × α) → Option α
  | [] => none
  | (k', v) :: rest => if k' = k then some v else lookupA k rest

/-- Association-list write `obj[k] = v` (overwrite keeps the key's position,
as JS objects do). -/
def insertA {α : Type} (k : String) (v : α) : List (String × α) → List (String × α)
  | [] => [(k, v)]
  | (k', v') :: rest => if k' = k then (k, v) :: rest else (k', v') :: insertA k v rest

/-- Association-list `delete obj[k]` (JS object keys are unique, so removing
every binding of `k` is the faithful model). -/
def eraseA {α : Type} (k : String) (l : List (String × α)) : List (String × α) :=
  l.filter (fun kv => kv.1 ≠ k)

/-- `dealCards` from `src/utils/cards.ts`, with the shuffled deck passed in
explicitly (the source computes `shuffleDeck(createDeck())`; the shuffle is an
arbitrary permutation of `createDeck`).  Player `i` receives
`deck.slice(13 i, 13 (i+1))` and the community pool `deck.slice(13 n, 13 n + 4)`. -/
def dealCards (deck : List Card) (players : List String) : GameCards :=
  { players := players.enum.map (fun ip => (ip.2, (deck.drop (13 * ip.1)).take 13)),
    communityCards := (deck.drop (13 * players.length)).take 4 }

/-- Seat lifecycle status, from the `GameRoom` status union in `src/pages/index.tsx`. -/
inductive Status
  | empty
  | waiting
  | ready
  | playing
  | summary
deriving DecidableEq

/-- One seat (`GameRoom`): occupant id or null, ready flag, status.
The constant `capacity = 1` is omitted as it never varies. -/
structure Room where
  player : Option String
  isReady : Bool
  status : Status
deriving DecidableEq

/-- The four fixed room identifiers `room-1` .. `room-4`. -/
inductive RoomId
  | room1
  | room2
  | room3
  | room4
deriving DecidableEq

/-- The `rooms` registry: exactly four fixed seats. -/
structure Rooms where
  r1 : Room
  r2 : Room
  r3 : Room
  r4 : Room
deriving DecidableEq

def Rooms.get (rs : Rooms) : RoomId → Room
  | RoomId.room1 => rs.r1
  | RoomId.room2 => rs.r2
  | RoomId.room3 => rs.r3
  | RoomId.room4 => rs.r4

def Rooms.set (rs : Rooms) : RoomId → Room → Rooms
  | RoomId.room1, r => { rs with r1 := r }
  | RoomId.room2, r => { rs with r2 := r }
  | RoomId.room3, r => { rs with r3 := r }
  | RoomId.room4, r => { rs with r4 := r }

/-- `Object.entries(rooms)` in key order. -/
def Rooms.entries (rs : Rooms) : List (RoomId × Room) :=
  [(RoomId.room1, rs.r1), (RoomId.room2, rs.r2), (RoomId.room3, rs.r3), (RoomId.room4, rs.r4)]

/-- Apply a transformation to every seat (models the source's `forEach` loops,
which touch each room at most once). -/
def mapRooms (f : Room → Room) (rs : Rooms) : Rooms :=
  ⟨f rs.r1, f rs.r2, f rs.r3, f rs.r4⟩

/-- The `playerPoints` ledger: one signed balance per room id. -/
structure Points where
  p1 : Int
  p2 : Int
  p3 : Int
  p4 : Int
deriving DecidableEq

def Points.get (ps : Points) : RoomId → Int
  | RoomId.room1 => ps.p1
  | RoomId.room2 => ps.p2
  | RoomId.room3 => ps.p3
  | RoomId.room4 => ps.p4

def Points.set (ps : Points) : RoomId → Int → Points
  | RoomId.room1, v => { ps with p1 := v }
  | RoomId.room2, v => { ps with p2 := v }
  | RoomId.room3, v => { ps with p3 := v }
  | RoomId.room4, v => { ps with p4 := v }

/-- The three card groups of a `confirmCards` payload. -/
structure CardGroups where
  row0 : List Card
  row1 : List Card
  row2 : List Card
deriving DecidableEq

/-- `PlayedCard` from `src/pages/index.tsx`. -/
structure PlayedCard where
  playerId : String
  roomId : RoomId
  cards : CardGroups
  communityCardUsed : Option Card
  confirmed : Bool
deriving DecidableEq

/-- One element of the `cardsSummary` broadcast payload. -/
structure SummaryEntry where
  roomId : RoomId
  playerId : String
  cards : CardGroups
  communityCardUsed : Option Card
deriving DecidableEq

/-- `PointTransaction` from `src/pages/index.tsx` (`from`/`to` renamed because
`from` is a Lean keyword). -/
structure Transaction where
  fromRoom : RoomId
  toRoom : RoomId
  amount : Int
  timestamp : Int
deriving DecidableEq

/-- The whole process-wide mutable state of the coordinator module. -/
structure State where
  rooms : Rooms
  playedCards : List (String × PlayedCard)
  readyForNextGame : List (String × Bool)
  playerPoints : Points
  transactions : List Transaction
deriving DecidableEq

def emptyRoom : Room := { player := none, isReady := false, status := Status.empty }

/-- Module-load state: all seats empty, all balances 0, no records. -/
def initialState : State :=
  { rooms := ⟨emptyRoom, emptyRoom, emptyRoom, emptyRoom⟩,
    playedCards := [],
    readyForNextGame := [],
    playerPoints := ⟨0, 0, 0, 0⟩,
    transactions := [] }

/-- An outbound event with its payload. -/
inductive Emit
  | roomsUpdate (rooms : Rooms)
  | pointsUpdate (points : Points)
  | transactionsUpdate (txs : List Transaction)
  | joinedRoom (roomId : RoomId)
  | gameStart (cards : List Card) (communityCards : List Card)
      (players : List String) (roomId : RoomId)
  | cardsSummary (summary : List SummaryEntry)
  | errorMsg (msg : String)
deriving DecidableEq

/-- Who an emission is delivered to. -/
inductive Audience
  | toCaller
  | toAll
  | toPlayer (id : String)
deriving DecidableEq

/-- One broadcast directive produced by a handler. -/
abbrev Directive := Audience × Emit

/-! ## Derived room lists (the `filter`/`map` chains of the handlers) -/

/-- `readyRooms` in `checkAndStartGame`: entries whose status is `ready`. -/
def readyRooms (s : State) : List (RoomId × Room) :=
  s.rooms.entries.filter (fun e => decide (e.2.status = Status.ready))

/-- `roomsWithPlayers` in `checkAndStartGame`: entries with a non-null player. -/
def roomsWithPlayers (s : State) : List (RoomId × Room) :=
  s.rooms.entries.filter (fun e => decide (e.2.player ≠ none))

/-- `playingRooms` in `checkAllPlayersConfirmed`: `playing` entries with a
player, paired as (roomId, playerId). -/
def playingRoomsL (s : State) : List (RoomId × String) :=
  (s.rooms.entries.filter
      (fun e => decide (e.2.status = Status.playing ∧ e.2.player ≠ none))).map
    (fun e => (e.1, e.2.player.getD ""))

/-- `summaryRooms` in `checkAllPlayersReadyForNextGame`. -/
def summaryRoomsL (s : State) : List (RoomId × String) :=
  (s.rooms.entries.filter
      (fun e => decide (e.2.status = Status.summary ∧ e.2.player ≠ none))).map
    (fun e => (e.1, e.2.player.getD ""))

/-! ## Per-room transformations used by the `forEach` mutation loops -/

/-- `checkAndStartGame`'s per-room mutation: every occupied room goes to
`playing` with its ready flag reset. -/
def setPlaying (room : Room) : Room :=
  if room.player ≠ none then { room with status := Status.playing, isReady := false } else room

/-- `checkAllPlayersConfirmed`'s per-room mutation: every occupied `playing`
room goes to `summary`. -/
def summarizeRoom (room : Room) : Room :=
  if room.status = Status.playing ∧ room.player ≠ none then
    { room with status := Status.summary } else room

/-- `checkAllPlayersReadyForNextGame`'s per-room mutation: every occupied
`summary` room is re-armed to `ready` with its ready flag set. -/
def rearmRoom (room : Room) : Room :=
  if room.status = Status.summary ∧ room.player ≠ none then
    { room with status := Status.ready, isReady := true } else room

/-- The eviction performed by `joinRoom` and `disconnect` on rooms owned by
the caller. -/
def resetIfOwned (callerId : String) (r : Room) : Room :=
  if r.player = some callerId then
    { player := none, isReady := false, status := Status.empty } else r

/-! ## The condition-check functions -/

/-- `checkAndStartGame` from `src/pages/index.tsx`.  Fires when at least one
room is `ready` and at least two rooms have players: deals from the (already
shuffled) `deck`, clears stale played cards, moves every occupied room to
`playing`, sends each occupant its private hand, then broadcasts rooms and
points. -/
def checkAndStartGame (deck : List Card) (s : State) : State × List Directive :=
  if 1 ≤ (readyRooms s).length ∧ 2 ≤ (roomsWithPlayers s).length then
    let players := (roomsWithPlayers s).map (fun e => e.2.player.getD "")
    let gameCards := dealCards deck players
    let newRooms := mapRooms setPlaying s.rooms
    let starts : List Directive := (roomsWithPlayers s).map (fun e =>
      (Audience.toPlayer (e.2.player.getD ""),
        Emit.gameStart ((lookupA (e.2.player.getD "") gameCards.players).getD [])
          gameCards.communityCards players e.1))
    ({ s with rooms := newRooms, playedCards := [] },
      starts ++ [(Audience.toAll, Emit.roomsUpdate newRooms),
                 (Audience.toAll, Emit.pointsUpdate s.playerPoints)])
  else (s, [])

/-- `checkAllPlayersConfirmed` from `src/pages/index.tsx`.  Fires when every
occupied `playing` room's player has a confirmed `PlayedCard` and at least two
such rooms exist: broadcasts the summary, moves those rooms to `summary`, and
resets their occupants' ready-for-next flags. -/
def checkAllPlayersConfirmed (s : State) : State × List Directive :=
  if (playingRoomsL s).all
        (fun pr => ((lookupA pr.2 s.playedCards).map PlayedCard.confirmed).getD false) = true
      ∧ 2 ≤ (playingRoomsL s).length then
    let summary := s.playedCards.map (fun kv =>
      ({ roomId := kv.2.roomId, playerId := kv.2.playerId, cards := kv.2.cards,
         communityCardUsed := kv.2.communityCardUsed } : SummaryEntry))
    let newRooms := mapRooms summarizeRoom s.rooms
    let newRfn := (playingRoomsL s).foldl (fun acc pr => insertA pr.2 false acc)
      s.readyForNextGame
    ({ s with rooms := newRooms, readyForNextGame := newRfn },
      [(Audience.toAll, Emit.cardsSummary summary),
       (Audience.toAll, Emit.roomsUpdate newRooms)])
  else (s, [])

/-- `checkAllPlayersReadyForNextGame` from `src/pages/index.tsx`.  Fires when
at least two occupied `summary` rooms exist and all their occupants are ready
for the next game: re-arms those rooms to `ready`, clears played cards and all
ready-for-next flags, broadcasts rooms, then immediately re-runs
`checkAndStartGame`.  The re-armed state (rooms re-armed, played cards
cleared, every ready-for-next flag set back to false) is factored out as
`rearmState`. -/
def rearmState (s : State) : State :=
  { s with rooms := mapRooms rearmRoom s.rooms,
           playedCards := [],
           readyForNextGame := s.readyForNextGame.map (fun kv => (kv.1, false)) }

def checkAllPlayersReadyForNextGame (deck : List Card) (s : State) :
    State × List Directive :=
  if 2 ≤ (summaryRoomsL s).length ∧
      (summaryRoomsL s).all (fun pr => (lookupA pr.2 s.readyForNextGame).getD false) = true then
    let r := checkAndStartGame deck (rearmState s)
    (r.1, (Audience.toAll, Emit.roomsUpdate (mapRooms rearmRoom s.rooms)) :: r.2)
  else (s, [])

/-! ## The inbound event handlers -/

/-- The `joinRoom` handler: rejects (with an `error` to the caller) when the
target room is `playing` or occupied; otherwise evicts the caller from any room
it holds, seats it as `waiting`, and broadcasts. -/
def joinRoom (callerId : String) (roomId : RoomId) (s : State) : State × List Directive :=
  if (s.rooms.get roomId).status = Status.playing ∨ (s.rooms.get roomId).player ≠ none then
    (s, [(Audience.toCaller, Emit.errorMsg "Room is not available")])
  else
    let joined := (mapRooms (resetIfOwned callerId) s.rooms).set roomId
      { player := some callerId, isReady := false, status := Status.waiting }
    ({ s with rooms := joined },
      [(Audience.toAll, Emit.roomsUpdate joined),
       (Audience.toAll, Emit.pointsUpdate s.playerPoints),
       (Audience.toCaller, Emit.joinedRoom roomId)])

/-- The `toggleReady` handler: silently ignored unless the caller owns the
room; otherwise flips the ready flag/status, broadcasts, and re-checks the
start condition with the given shuffled `deck`. -/
def toggleReady (callerId : String) (roomId : RoomId) (deck : List Card) (s : State) :
    State × List Directive :=
  if (s.rooms.get roomId).player = some callerId then
    let room := s.rooms.get roomId
    let newRoom := { room with
      isReady := !room.isReady,
      status := if !room.isReady then Status.ready else Status.waiting }
    let newRooms := s.rooms.set roomId newRoom
    let r := checkAndStartGame deck { s with rooms := newRooms }
    (r.1, (Audience.toAll, Emit.roomsUpdate newRooms) :: r.2)
  else (s, [])

/-- The `confirmCards` handler: silently ignored unless the caller owns the
room and it is `playing`; otherwise stores a confirmed `PlayedCard` (no shape
validation of the groups) and re-checks the summarize condition. -/
def confirmCards (callerId : String) (roomId : RoomId) (cards : CardGroups)
    (communityCardUsed : Option Card) (s : State) : State × List Directive :=
  if (s.rooms.get roomId).player = some callerId ∧
      (s.rooms.get roomId).status = Status.playing then
    let played : PlayedCard :=
      { playerId := callerId, roomId := roomId, cards := cards,
        communityCardUsed := communityCardUsed, confirmed := true }
    checkAllPlayersConfirmed
      { s with playedCards := insertA callerId played s.playedCards }
  else (s, [])

/-- The `readyForNextGame` handler: silently ignored unless the caller owns the
room and it is `summary`; otherwise records the flag and re-checks the
next-round condition. -/
def readyForNextGameEvent (callerId : String) (roomId : RoomId) (deck : List Card)
    (s : State) : State × List Directive :=
  if (s.rooms.get roomId).player = some callerId ∧
      (s.rooms.get roomId).status = Status.summary then
    checkAllPlayersReadyForNextGame deck
      { s with readyForNextGame := insertA callerId true s.readyForNextGame }
  else (s, [])

/-- The `transferPoints` handler, with its four validations in source order
(positive amount, both seats occupied, both seats in summary, caller owns the
source seat); on success the debit/credit is sequential and a transaction is
appended and broadcast. -/
def transferPoints (callerId : String) (fromRoomId toRoomId : RoomId) (amount : Int)
    (now : Int) (s : State) : State × List Directive :=
  if amount ≤ 0 then
    (s, [(Audience.toCaller, Emit.errorMsg "Cannot transfer zero or negative points")])
  else if (s.rooms.get fromRoomId).player = none ∨ (s.rooms.get toRoomId).player = none then
    (s, [(Audience.toCaller, Emit.errorMsg "Cannot transfer points - players not found")])
  else if (s.rooms.get fromRoomId).status ≠ Status.summary ∨
      (s.rooms.get toRoomId).status ≠ Status.summary then
    (s, [(Audience.toCaller, Emit.errorMsg "Cannot transfer points - game not in summary state")])
  else if (s.rooms.get fromRoomId).player ≠ some callerId then
    (s, [(Audience.toCaller, Emit.errorMsg "You can only transfer your own points")])
  else
    let pts1 := s.playerPoints.set fromRoomId (s.playerPoints.get fromRoomId - amount)
    let pts2 := pts1.set toRoomId (pts1.get toRoomId + amount)
    let newTxs := s.transactions ++
      [{ fromRoom := fromRoomId, toRoom := toRoomId, amount := amount, timestamp := now }]
    ({ s with playerPoints := pts2, transactions := newTxs },
      [(Audience.toAll, Emit.pointsUpdate pts2),
       (Audience.toAll, Emit.transactionsUpdate newTxs)])

/-- The `disconnect` handler: deletes the caller's `PlayedCard` and
ready-for-next flag, resets every room the caller holds (player null, unready,
`empty`), and broadcasts rooms once per reset room.  Points and the
transaction log are untouched. -/
def disconnect (callerId : String) (s : State) : State × List Directive :=
  let newRooms := mapRooms (resetIfOwned callerId) s.rooms
  ({ s with rooms := newRooms,
            playedCards := eraseA callerId s.playedCards,
            readyForNextGame := eraseA callerId s.readyForNextGame },
    (s.rooms.entries.filter (fun e => decide (e.2.player = some callerId))).map
      (fun _ => (Audience.toAll, Emit.roomsUpdate newRooms)))

/-! ## The event-level transition system -/

/-- One inbound event, carrying the shuffled deck / timestamp the handler
would obtain from `Math.random` / `Date.now()`. -/
inductive Event
  | join (callerId : String) (roomId : RoomId)
  | toggle (callerId : String) (roomId : RoomId) (deck : List Card)
  | confirm (callerId : String) (roomId : RoomId) (cards : CardGroups) (cc : Option Card)
  | readyNext (callerId : String) (roomId : RoomId) (deck : List Card)
  | transfer (callerId : String) (fromRoomId toRoomId : RoomId) (amount : Int) (now : Int)
  | disc (callerId : String)

/-- Dispatch one event to its handler. -/
def step : Event → State → State × List Directive
  | Event.join c rid, s => joinRoom c rid s
  | Event.toggle c rid deck, s => toggleReady c rid deck s
  | Event.confirm c rid cards cc, s => confirmCards c rid cards cc s
  | Event.readyNext c rid deck, s => readyForNextGameEvent c rid deck s
  | Event.transfer c fr toR amt now, s => transferPoints c fr toR amt now s
  | Event.disc c, s => disconnect c s

/-- States reachable from module load by any sequence of events. -/
inductive Reachable : State → Prop
  | init : Reachable initialState
  | next {s : State} (e : Event) : Reachable s → Reachable (step e s).1

/-! ## Lemmas about the deal (claim C1) -/

/-- Recursive view of the slice-based dealing of `dealCards`: the head player
takes the first 13 cards, the rest deal from the remaining deck. -/
def dealHandsRec (deck : List Card) : List String → List (String × List Card)
  | [] => []
  | p :: rest => (p, deck.take 13) :: dealHandsRec (deck.drop 13) rest

theorem enumFrom_hands (deck : List Card) (players : List String) :
    ∀ k : Nat,
      (players.enumFrom k).map (fun ip => (ip.2, (deck.drop (13 * ip.1)).take 13)) =
        dealHandsRec (deck.drop (13 * k)) players := by
  induction players with
  | nil => intro k; rfl
  | cons q rest ih =>
    intro k
    have hdd : (deck.drop (13 * k)).drop 13 = deck.drop (13 * (k + 1)) := by
      rw [List.drop_drop]; ring_nf
    simp only [List.enumFrom, List.map_cons, dealHandsRec, hdd, ih (k + 1)]

theorem dealCards_players_eq (deck : List Card) (players : List String) :
    (dealCards deck players).players = dealHandsRec deck players := by
  have h := enumFrom_hands deck players 0
  simpa [dealCards, List.enum] using h

theorem dealHandsRec_flat (deck : List Card) (players : List String) :
    (dealHandsRec deck players).flatMap (fun kv => kv.2) =
      deck.take (13 * players.length) := by
  induction players generalizing deck with
  | nil => simp [dealHandsRec]
  | cons q rest ih =>
    have harith : 13 * (q :: rest).length = 13 + 13 * rest.length := by
      simp [List.length_cons]; ring
    rw [harith, List.take_add deck 13 (13 * rest.length)]
    simp only [dealHandsRec, List.flatMap_cons, ih (deck.drop 13)]

theorem dealHandsRec_lookup (players : List String) :
    ∀ deck : List Card, players.Nodup → 13 * players.length ≤ deck.length →
      ∀ p ∈ players, ∃ hand, lookupA p (dealHandsRec deck players) = some hand ∧
        hand.length = 13 := by
  induction players with
  | nil => intro deck _ _ p hp; cases hp
  | cons q rest ih =>
    intro deck hnd hlen p hp
    rcases List.mem_cons.mp hp with hpq | hpr
    · refine ⟨deck.take 13, ?_, ?_⟩
      · simp [dealHandsRec, lookupA, hpq]
      · have : 13 ≤ deck.length := by
          have := hlen; simp [List.length_cons] at this; omega
        simp [List.length_take]; omega
    · have hqp : q ≠ p := by
        intro h; exact (List.nodup_cons.mp hnd).1 (h ▸ hpr)
      have hlen' : 13 * rest.length ≤ (deck.drop 13).length := by
        have := hlen; simp [List.length_cons, List.length_drop] at *; omega
      have := ih (deck.drop 13) (List.nodup_cons.mp hnd).2 hlen' p hpr
      simpa [dealHandsRec, lookupA, hqp] using this

theorem createDeck_length : createDeck.length = 56 := by decide

/-- Claim C1: for every permutation of the 56-card deck and every list of at
most 4 distinct occupants, `dealCards` gives each occupant exactly 13 cards and
the community pool exactly 4; the concatenation of all hands and the pool is an
initial segment of the shuffled deck (hence the destinations are pairwise
disjoint, drawn without replacement), and its multiset is contained in the
56-card deck built by `createDeck` (no duplicate card instances). -/
theorem dealCards_deal_spec (deck : List Card) (players : List String)
    (hperm : deck.Perm createDeck) (hlen : players.length ≤ 4)
    (hnd : players.Nodup) :
    (∀ p ∈ players, ∃ hand,
        lookupA p (dealCards deck players).players = some hand ∧ hand.length = 13)
    ∧ (dealCards deck players).communityCards.length = 4
    ∧ (dealCards deck players).players.flatMap (fun kv => kv.2) ++
        (dealCards deck players).communityCards = deck.take (13 * players.length + 4)
    ∧ ((((dealCards deck players).players.flatMap (fun kv => kv.2) ++
        (dealCards deck players).communityCards : List Card)) : Multiset Card) ≤
        (createDeck : Multiset Card) := by
  have hdl : deck.length = 56 := hperm.length_eq.trans createDeck_length
  have hflat : (dealCards deck players).players.flatMap (fun kv => kv.2) ++
      (dealCards deck players).communityCards = deck.take (13 * players.length + 4) := by
    rw [dealCards_players_eq, dealHandsRec_flat,
      List.take_add deck (13 * players.length) 4]
    rfl
  refine ⟨?_, ?_, hflat, ?_⟩
  · intro p hp
    rw [dealCards_players_eq]
    exact dealHandsRec_lookup players deck hnd (by omega) p hp
  · simp [dealCards, List.length_take, List.length_drop]; omega
  · rw [hflat]
    calc ((deck.take (13 * players.length + 4) : List Card) : Multiset Card)
        ≤ (deck : Multiset Card) :=
          Multiset.coe_le.mpr (List.take_sublist _ _).subperm
      _ = (createDeck : Multiset Card) := Multiset.coe_eq_coe.mpr hperm

/-- Witness for C1 at the identity permutation with two occupants. -/
theorem dealCards_deal_spec_witness :
    (∀ p ∈ ["a", "b"], ∃ hand,
        lookupA p (dealCards createDeck ["a", "b"]).players = some hand ∧ hand.length = 13)
    ∧ (dealCards createDeck ["a", "b"]).communityCards.length = 4
    ∧ (dealCards createDeck ["a", "b"]).players.flatMap (fun kv => kv.2) ++
        (dealCards createDeck ["a", "b"]).communityCards =
        createDeck.take (13 * (["a", "b"] : List String).length + 4)
    ∧ ((((dealCards createDeck ["a", "b"]).players.flatMap (fun kv => kv.2) ++
        (dealCards createDeck ["a", "b"]).communityCards : List Card)) : Multiset Card) ≤
        (createDeck : Multiset Card) :=
  dealCards_deal_spec createDeck ["a", "b"] (List.Perm.refl _) (by decide) (by decide)

/-! ## Association-list lemmas -/

theorem lookupA_insertA_self {α : Type} (k : String) (v : α) (l : List (String × α)) :
    lookupA k (insertA k v l) = some v := by
  induction l with
  | nil => simp [insertA, lookupA]
  | cons kv rest ih =>
    by_cases h : kv.1 = k
    · simp [insertA, lookupA, h]
    · simp [insertA, lookupA, h, ih]

theorem lookupA_eraseA {α : Type} (k : String) (l : List (String × α)) :
    lookupA k (eraseA k l) = none := by
  induction l with
  | nil => rfl
  | cons kv rest ih =>
    by_cases h : kv.1 = k
    · simpa [eraseA, List.filter, h] using ih
    · simpa [eraseA, List.filter, lookupA, h] using ih

theorem checkAllPlayersConfirmed_playedCards (s : State) :
    (checkAllPlayersConfirmed s).1.playedCards = s.playedCards := by
  unfold checkAllPlayersConfirmed
  split <;> rfl

/-! ## Claim C9: disconnect resets the seat, keeps the ledger -/

/-- Claim C9: on disconnect, every seat held by the disconnecting occupant is
reset (occupant null, unready, status `empty`), other seats are untouched, the
occupant's `PlayedCard` and ready-for-next flag are deleted, and the point
balances and transaction log are exactly as before. -/
theorem disconnect_frame (callerId : String) (s : State) :
    (∀ rid : RoomId,
        (disconnect callerId s).1.rooms.get rid =
          (if (s.rooms.get rid).player = some callerId then emptyRoom
           else s.rooms.get rid))
    ∧ lookupA callerId (disconnect callerId s).1.playedCards = none
    ∧ lookupA callerId (disconnect callerId s).1.readyForNextGame = none
    ∧ (disconnect callerId s).1.playerPoints = s.playerPoints
    ∧ (disconnect callerId s).1.transactions = s.transactions := by
  refine ⟨?_, ?_, ?_, rfl, rfl⟩
  · intro rid
    cases rid <;> simp [disconnect, mapRooms, Rooms.get, resetIfOwned, emptyRoom]
  · exact lookupA_eraseA callerId s.playedCards
  · exact lookupA_eraseA callerId s.readyForNextGame

/-! ## Claim C2: confirmCards does not validate the 13-card shape -/

/-- A state with `alice` alone in room 1 which is `playing`. -/
def confirmCexState : State :=
  { rooms := ⟨{ player := some "alice", isReady := false, status := Status.playing },
              emptyRoom, emptyRoom, emptyRoom⟩,
    playedCards := [],
    readyForNextGame := [],
    playerPoints := ⟨0, 0, 0, 0⟩,
    transactions := [] }

/-- A card-group payload totalling 1 card instead of 13. -/
def confirmCexGroups : CardGroups := ⟨[⟨Suit.hearts, "2"⟩], [], []⟩

/-- Counterexample to claim C2: a `confirmCards` submission whose three groups
total 1 card (not 13) is not rejected — the coordinator stores a confirmed
`PlayedCard` for the sender anyway. -/
theorem confirmCards_no_shape_validation_cex :
    confirmCexGroups.row0.length + confirmCexGroups.row1.length +
        confirmCexGroups.row2.length ≠ 13
    ∧ lookupA "alice"
        (confirmCards "alice" RoomId.room1 confirmCexGroups none confirmCexState).1.playedCards
      = some { playerId := "alice", roomId := RoomId.room1, cards := confirmCexGroups,
               communityCardUsed := none, confirmed := true } := by decide

/-- Claim C2 amended: the coordinator performs no 13-card validation at all.
Any `confirmCards` from the owner of a `playing` seat stores a `PlayedCard`
with `confirmed = true` and the submitted groups, whatever their sizes. -/
theorem confirmCards_stores_any_shape (s : State) (caller : String) (roomId : RoomId)
    (cards : CardGroups) (cc : Option Card)
    (hown : (s.rooms.get roomId).player = some caller)
    (hst : (s.rooms.get roomId).status = Status.playing) :
    lookupA caller (confirmCards caller roomId cards cc s).1.playedCards =
      some { playerId := caller, roomId := roomId, cards := cards,
             communityCardUsed := cc, confirmed := true } := by
  unfold confirmCards
  rw [if_pos ⟨hown, hst⟩]
  rw [checkAllPlayersConfirmed_playedCards]
  exact lookupA_insertA_self caller _ s.playedCards

/-- Witness for the amended C2 at a concrete 1-card submission. -/
theorem confirmCards_stores_any_shape_witness :
    lookupA "alice"
        (confirmCards "alice" RoomId.room1 confirmCexGroups none confirmCexState).1.playedCards =
      some { playerId := "alice", roomId := RoomId.room1, cards := confirmCexGroups,
             communityCardUsed := none, confirmed := true } :=
  confirmCards_stores_any_shape confirmCexState "alice" RoomId.room1 confirmCexGroups none
    (by decide) (by decide)

/-! ## Claim C3: silent-ignore policy for non-transfer precondition failures -/

/-- A state with `bob` alone in room 1 which is `waiting`. -/
def joinCexState : State :=
  { rooms := ⟨{ player := some "bob", isReady := false, status := Status.waiting },
              emptyRoom, emptyRoom, emptyRoom⟩,
    playedCards := [],
    readyForNextGame := [],
    playerPoints := ⟨0, 0, 0, 0⟩,
    transactions := [] }

/-- Counterexample to claim C3: `joinRoom` on an unavailable (occupied) seat is
not silent — it emits an `error` event to the caller (while changing no
state). -/
theorem joinRoom_emits_error_cex :
    (joinRoom "alice" RoomId.room1 joinCexState).2 =
      [(Audience.toCaller, Emit.errorMsg "Room is not available")]
    ∧ (joinRoom "alice" RoomId.room1 joinCexState).1 = joinCexState := by decide

/-- Claim C3 amended: `toggleReady` from a non-owner, `confirmCards` outside
status `playing`, and `readyForNextGame` outside status `summary` are silently
ignored (no state change, no emission of any kind); `joinRoom` on an
unavailable seat also changes no state and broadcasts nothing, but it does emit
an `error` event to the originating caller. -/
theorem precondition_failures_policy (s : State) (caller : String) (roomId : RoomId)
    (deck : List Card) (cards : CardGroups) (cc : Option Card) :
    (((s.rooms.get roomId).status = Status.playing ∨ (s.rooms.get roomId).player ≠ none) →
        joinRoom caller roomId s =
          (s, [(Audience.toCaller, Emit.errorMsg "Room is not available")]))
    ∧ ((s.rooms.get roomId).player ≠ some caller →
        toggleReady caller roomId deck s = (s, []))
    ∧ (¬((s.rooms.get roomId).player = some caller ∧
          (s.rooms.get roomId).status = Status.playing) →
        confirmCards caller roomId cards cc s = (s, []))
    ∧ (¬((s.rooms.get roomId).player = some caller ∧
          (s.rooms.get roomId).status = Status.summary) →
        readyForNextGameEvent caller roomId deck s = (s, [])) := by
  refine ⟨?_, ?_, ?_, ?_⟩
  · intro h; unfold joinRoom; rw [if_pos h]
  · intro h; unfold toggleReady; rw [if_neg h]
  · intro h; unfold confirmCards; rw [if_neg h]
  · intro h; unfold readyForNextGameEvent; rw [if_neg h]

/-- Witness for the amended C3 at a concrete state (room 1 held by `bob`,
caller `alice`). -/
theorem precondition_failures_policy_witness :
    joinRoom "alice" RoomId.room1 joinCexState =
      (joinCexState, [(Audience.toCaller, Emit.errorMsg "Room is not available")])
    ∧ toggleReady "alice" RoomId.room1 [] joinCexState = (joinCexState, [])
    ∧ confirmCards "alice" RoomId.room1 confirmCexGroups none joinCexState = (joinCexState, [])
    ∧ readyForNextGameEvent "alice" RoomId.room1 [] joinCexState = (joinCexState, []) := by
  have h := precondition_failures_policy joinCexState "alice" RoomId.room1 [] confirmCexGroups none
  exact ⟨h.1 (by decide), h.2.1 (by decide), h.2.2.1 (by decide), h.2.2.2 (by decide)⟩

/-! ## Claims C4, C8, C10: the transfer path -/

theorem transferPoints_success (caller : String) (fromR toR : RoomId) (amount now : Int)
    (s : State) (hn : 0 < amount)
    (hf : (s.rooms.get fromR).player = some caller)
    (ht : (s.rooms.get toR).player ≠ none)
    (hfs : (s.rooms.get fromR).status = Status.summary)
    (hts : (s.rooms.get toR).status = Status.summary) :
    transferPoints caller fromR toR amount now s =
      ({ s with
          playerPoints := (s.playerPoints.set fromR (s.playerPoints.get fromR - amount)).set
            toR ((s.playerPoints.set fromR (s.playerPoints.get fromR - amount)).get toR + amount),
          transactions := s.transactions ++
            [{ fromRoom := fromR, toRoom := toR, amount := amount, timestamp := now }] },
        [(Audience.toAll, Emit.pointsUpdate
            ((s.playerPoints.set fromR (s.playerPoints.get fromR - amount)).set
              toR ((s.playerPoints.set fromR (s.playerPoints.get fromR - amount)).get toR + amount))),
         (Audience.toAll, Emit.transactionsUpdate (s.transactions ++
            [{ fromRoom := fromR, toRoom := toR, amount := amount, timestamp := now }]))]) := by
  unfold transferPoints
  rw [if_neg (by omega)]
  rw [if_neg (by push_neg; exact ⟨by simp [hf], ht⟩)]
  rw [if_neg (by push_neg; exact ⟨hfs, hts⟩)]
  rw [if_neg (by simp [hf])]

/-- Claim C4: every transferPoints call violating a precondition leaves the
state exactly as before and sends a single error event to the caller, whose
message is the distinct one for the (first, in source order) violated
precondition: non-positive amount, unoccupied seat, seat outside the summary
phase, or a caller who does not own the source seat. -/
theorem transferPoints_rejects_invalid (caller : String) (fromR toR : RoomId)
    (amount now : Int) (s : State)
    (hviol : amount ≤ 0 ∨ (s.rooms.get fromR).player = none ∨
      (s.rooms.get toR).player = none ∨
      (s.rooms.get fromR).status ≠ Status.summary ∨
      (s.rooms.get toR).status ≠ Status.summary ∨
      (s.rooms.get fromR).player ≠ some caller) :
    (transferPoints caller fromR toR amount now s).1 = s
    ∧ ∃ msg, (transferPoints caller fromR toR amount now s).2 =
        [(Audience.toCaller, Emit.errorMsg msg)]
      ∧ (amount ≤ 0 → msg = "Cannot transfer zero or negative points")
      ∧ (0 < amount →
          ((s.rooms.get fromR).player = none ∨ (s.rooms.get toR).player = none) →
          msg = "Cannot transfer points - players not found")
      ∧ (0 < amount → (s.rooms.get fromR).player ≠ none →
          (s.rooms.get toR).player ≠ none →
          ((s.rooms.get fromR).status ≠ Status.summary ∨
            (s.rooms.get toR).status ≠ Status.summary) →
          msg = "Cannot transfer points - game not in summary state")
      ∧ (0 < amount → (s.rooms.get fromR).player ≠ none →
          (s.rooms.get toR).player ≠ none →
          (s.rooms.get fromR).status = Status.summary →
          (s.rooms.get toR).status = Status.summary →
          (s.rooms.get fromR).player ≠ some caller →
          msg = "You can only transfer your own points") := by
  unfold transferPoints
  by_cases h1 : amount ≤ 0
  · rw [if_pos h1]
    exact ⟨rfl, "Cannot transfer zero or negative points", rfl,
      fun _ => rfl, fun hpos _ => absurd h1 (by omega),
      fun hpos _ _ _ => absurd h1 (by omega),
      fun hpos _ _ _ _ _ => absurd h1 (by omega)⟩
  · rw [if_neg h1]
    by_cases h2 : (s.rooms.get fromR).player = none ∨ (s.rooms.get toR).player = none
    · rw [if_pos h2]
      refine ⟨rfl, "Cannot transfer points - players not found", rfl,
        fun h => absurd h h1, fun _ _ => rfl, ?_, ?_⟩
      · intro _ hfo hto _; exact absurd h2 (by push_neg; exact ⟨hfo, hto⟩)
      · intro _ hfo hto _ _ _; exact absurd h2 (by push_neg; exact ⟨hfo, hto⟩)
    · rw [if_neg h2]
      by_cases h3 : (s.rooms.get fromR).status ≠ Status.summary ∨
          (s.rooms.get toR).status ≠ Status.summary
      · rw [if_pos h3]
        refine ⟨rfl, "Cannot transfer points - game not in summary state", rfl,
          fun h => absurd h h1, fun _ h => absurd h h2, fun _ _ _ _ => rfl, ?_⟩
        intro _ _ _ hfs hts _
        rcases h3 with h | h
        · exact absurd hfs h
        · exact absurd hts h
      · rw [if_neg h3]
        by_cases h4 : (s.rooms.get fromR).player ≠ some caller
        · rw [if_pos h4]
          refine ⟨rfl, "You can only transfer your own points", rfl,
            fun h => absurd h h1, fun _ h => absurd h h2, ?_,
            fun _ _ _ _ _ _ => rfl⟩
          intro _ _ _ h; exact absurd h h3
        · exfalso
          push_neg at h2 h3 h4
          rcases hviol with h | h | h | h | h | h
          · exact h1 h
          · exact h2.1 h
          · exact h2.2 h
          · exact h h3.1
          · exact h h3.2
          · exact h h4

/-- Witness for C4: a zero-amount transfer on the initial state is rejected
with the invalid-amount message and no state change. -/
theorem transferPoints_rejects_invalid_witness :
    (transferPoints "x" RoomId.room1 RoomId.room2 0 0 initialState).1 = initialState
    ∧ ∃ msg, (transferPoints "x" RoomId.room1 RoomId.room2 0 0 initialState).2 =
        [(Audience.toCaller, Emit.errorMsg msg)]
      ∧ ((0 : Int) ≤ 0 → msg = "Cannot transfer zero or negative points")
      ∧ ((0 : Int) < 0 →
          ((initialState.rooms.get RoomId.room1).player = none ∨
            (initialState.rooms.get RoomId.room2).player = none) →
          msg = "Cannot transfer points - players not found")
      ∧ ((0 : Int) < 0 → (initialState.rooms.get RoomId.room1).player ≠ none →
          (initialState.rooms.get RoomId.room2).player ≠ none →
          ((initialState.rooms.get RoomId.room1).status ≠ Status.summary ∨
            (initialState.rooms.get RoomId.room2).status ≠ Status.summary) →
          msg = "Cannot transfer points - game not in summary state")
      ∧ ((0 : Int) < 0 → (initialState.rooms.get RoomId.room1).player ≠ none →
          (initialState.rooms.get RoomId.room2).player ≠ none →
          (initialState.rooms.get RoomId.room1).status = Status.summary →
          (initialState.rooms.get RoomId.room2).status = Status.summary →
          (initialState.rooms.get RoomId.room1).player ≠ some "x" →
          msg = "You can only transfer your own points") :=
  transferPoints_rejects_invalid "x" RoomId.room1 RoomId.room2 0 0 initialState
    (Or.inl (by decide))

/-- Claim C8: a transfer from A to B followed by the reverse transfer of the
same amount restores every balance to its original value and appends exactly
the two corresponding transactions to the log. -/
theorem transfer_roundtrip (s : State) (A B : RoomId) (n : Int)
    (callerA callerB : String) (now1 now2 : Int)
    (hAB : A ≠ B) (hn : 0 < n)
    (hA : (s.rooms.get A).player = some callerA)
    (hB : (s.rooms.get B).player = some callerB)
    (hAs : (s.rooms.get A).status = Status.summary)
    (hBs : (s.rooms.get B).status = Status.summary) :
    ((transferPoints callerB B A n now2
        (transferPoints callerA A B n now1 s).1).1).playerPoints = s.playerPoints
    ∧ ((transferPoints callerB B A n now2
        (transferPoints callerA A B n now1 s).1).1).transactions =
      s.transactions ++
        [{ fromRoom := A, toRoom := B, amount := n, timestamp := now1 },
         { fromRoom := B, toRoom := A, amount := n, timestamp := now2 }] := by
  rw [transferPoints_success callerA A B n now1 s hn hA (by simp [hB]) hAs hBs]
  dsimp only
  rw [transferPoints_success callerB B A n now2
      { s with
        playerPoints := (s.playerPoints.set A (s.playerPoints.get A - n)).set
          B ((s.playerPoints.set A (s.playerPoints.get A - n)).get B + n),
        transactions := s.transactions ++
          [{ fromRoom := A, toRoom := B, amount := n, timestamp := now1 }] }
      hn hB (by simp [hA]) hBs hAs]
  constructor
  · cases A <;> cases B <;>
      first
        | exact absurd rfl hAB
        | (simp [Points.set, Points.get, Points.mk.injEq]; try omega)
  · simp

/-- Witness for C8 at a concrete two-seat summary state. -/
def roundtripState : State :=
  { rooms := ⟨{ player := some "a", isReady := false, status := Status.summary },
              { player := some "b", isReady := false, status := Status.summary },
              emptyRoom, emptyRoom⟩,
    playedCards := [],
    readyForNextGame := [],
    playerPoints := ⟨5, 7, 0, 0⟩,
    transactions := [] }

theorem transfer_roundtrip_witness :
    ((transferPoints "b" RoomId.room2 RoomId.room1 3 11
        (transferPoints "a" RoomId.room1 RoomId.room2 3 10 roundtripState).1).1).playerPoints =
      roundtripState.playerPoints
    ∧ ((transferPoints "b" RoomId.room2 RoomId.room1 3 11
        (transferPoints "a" RoomId.room1 RoomId.room2 3 10 roundtripState).1).1).transactions =
      roundtripState.transactions ++
        [{ fromRoom := RoomId.room1, toRoom := RoomId.room2, amount := 3, timestamp := 10 },
         { fromRoom := RoomId.room2, toRoom := RoomId.room1, amount := 3, timestamp := 11 }] :=
  transfer_roundtrip roundtripState RoomId.room1 RoomId.room2 3 "a" "b" 10 11
    (by decide) (by decide) (by decide) (by decide) (by decide) (by decide)

/-- Claim C10: a self-transfer (fromSeat = toSeat) by the seat's occupant in
the summary phase with positive amount succeeds: every balance is unchanged
(the seat is debited then credited the same amount), yet one new transaction is
appended to the log and the balances and full log are broadcast to all. -/
theorem transferPoints_self (s : State) (A : RoomId) (caller : String) (n now : Int)
    (hocc : (s.rooms.get A).player = some caller)
    (hsum : (s.rooms.get A).status = Status.summary) (hn : 0 < n) :
    transferPoints caller A A n now s =
      ({ s with transactions := s.transactions ++
          [{ fromRoom := A, toRoom := A, amount := n, timestamp := now }] },
        [(Audience.toAll, Emit.pointsUpdate s.playerPoints),
         (Audience.toAll, Emit.transactionsUpdate (s.transactions ++
            [{ fromRoom := A, toRoom := A, amount := n, timestamp := now }]))]) := by
  rw [transferPoints_success caller A A n now s hn hocc (by simp [hocc]) hsum hsum]
  have hpts : (s.playerPoints.set A (s.playerPoints.get A - n)).set A
      ((s.playerPoints.set A (s.playerPoints.get A - n)).get A + n) = s.playerPoints := by
    cases A <;> (simp [Points.set, Points.get, Points.mk.injEq]; try omega)
  rw [hpts]

/-- Witness for C10: a self-transfer of 3 points on seat 1 of a concrete
summary state. -/
theorem transferPoints_self_witness :
    transferPoints "a" RoomId.room1 RoomId.room1 3 10 roundtripState =
      ({ roundtripState with transactions := roundtripState.transactions ++
          [{ fromRoom := RoomId.room1, toRoom := RoomId.room1, amount := 3, timestamp := 10 }] },
        [(Audience.toAll, Emit.pointsUpdate roundtripState.playerPoints),
         (Audience.toAll, Emit.transactionsUpdate (roundtripState.transactions ++
            [{ fromRoom := RoomId.room1, toRoom := RoomId.room1, amount := 3, timestamp := 10 }]))]) :=
  transferPoints_self roundtripState RoomId.room1 "a" 3 10 (by decide) (by decide) (by decide)

/-! ## Rooms-registry lemmas -/

theorem Rooms.get_mapRooms (f : Room → Room) (rs : Rooms) (rid : RoomId) :
    (mapRooms f rs).get rid = f (rs.get rid) := by
  cases rid <;> rfl

theorem Rooms.entries_mapRooms (f : Room → Room) (rs : Rooms) :
    (mapRooms f rs).entries = rs.entries.map (fun e => (e.1, f e.2)) := rfl

theorem Rooms.get_set (rs : Rooms) (rid : RoomId) (r : Room) (rid' : RoomId) :
    (rs.set rid r).get rid' = if rid' = rid then r else rs.get rid' := by
  cases rid <;> cases rid' <;> simp [Rooms.set, Rooms.get]

theorem Rooms.eq_get_of_mem_entries (rs : Rooms) :
    ∀ e ∈ rs.entries, e.2 = rs.get e.1 := by
  intro e he
  simp [Rooms.entries] at he
  rcases he with h | h | h | h <;> subst h <;> rfl

theorem rearmRoom_player (r : Room) : (rearmRoom r).player = r.player := by
  unfold rearmRoom; split <;> rfl

theorem setPlaying_player (r : Room) : (setPlaying r).player = r.player := by
  unfold setPlaying; split <;> rfl

theorem summarizeRoom_player (r : Room) : (summarizeRoom r).player = r.player := by
  unfold summarizeRoom; split <;> rfl

theorem lookupA_map_false (k : String) (l : List (String × Bool)) :
    (lookupA k (l.map (fun kv => (kv.1, false)))).getD false = false := by
  induction l with
  | nil => rfl
  | cons kv rest ih =>
    by_cases h : kv.1 = k
    · simp [lookupA, h]
    · simpa [lookupA, h] using ih

/-! ## Claim C5: the start gate -/

/-- Claim C5: `checkAndStartGame` mutates state or emits anything at all
exactly when at least one room is `ready` and at least two rooms are occupied;
in particular with fewer than two occupied rooms it never fires, however many
rooms are `ready`. -/
theorem checkAndStartGame_gate (deck : List Card) (s : State) :
    (checkAndStartGame deck s ≠ (s, []) ↔
      1 ≤ (readyRooms s).length ∧ 2 ≤ (roomsWithPlayers s).length)
    ∧ ((roomsWithPlayers s).length < 2 → checkAndStartGame deck s = (s, [])) := by
  have hneg : ¬(1 ≤ (readyRooms s).length ∧ 2 ≤ (roomsWithPlayers s).length) →
      checkAndStartGame deck s = (s, []) := by
    intro h; unfold checkAndStartGame; rw [if_neg h]
  refine ⟨⟨fun hfire => ?_, fun hc heq => ?_⟩, fun h2 => hneg (fun hc => by omega)⟩
  · by_contra h; exact hfire (hneg h)
  · unfold checkAndStartGame at heq
    rw [if_pos hc] at heq
    have := congrArg Prod.snd heq
    simp at this

/-- Witness for C5: the empty initial state has no occupied room, so the start
transition does not fire there. -/
theorem checkAndStartGame_gate_witness :
    checkAndStartGame [] initialState = (initialState, []) :=
  (checkAndStartGame_gate [] initialState).2 (by decide)

/-! ## Claim C7: next-round re-arms and immediately redeals -/

theorem summary_le_ready_after_rearm (s : State) :
    (summaryRoomsL s).length ≤ (readyRooms (rearmState s)).length := by
  unfold summaryRoomsL readyRooms rearmState
  simp only [List.length_map]
  rw [Rooms.entries_mapRooms, ← List.countP_eq_length_filter,
    ← List.countP_eq_length_filter, List.countP_map]
  apply List.countP_mono_left
  intro e _ h
  simp only [decide_eq_true_eq] at h
  simp only [Function.comp_apply, decide_eq_true_eq]
  unfold rearmRoom
  rw [if_pos h]

theorem summary_le_players_after_rearm (s : State) :
    (summaryRoomsL s).length ≤ (roomsWithPlayers (rearmState s)).length := by
  unfold summaryRoomsL roomsWithPlayers rearmState
  simp only [List.length_map]
  rw [Rooms.entries_mapRooms, ← List.countP_eq_length_filter,
    ← List.countP_eq_length_filter, List.countP_map]
  apply List.countP_mono_left
  intro e _ h
  simp only [decide_eq_true_eq] at h
  simp only [Function.comp_apply, decide_eq_true_eq, rearmRoom_player]
  exact h.2

/-- Claim C7: when the next-round condition holds (at least two occupied
`summary` seats, all of whose occupants are flagged ready for the next game),
the handler re-arms every occupied `summary` seat to `ready` with its ready
flag set, clears all `PlayedCard` records and every ready-for-next flag, and
runs the start check immediately on that re-armed state — whose start
condition necessarily holds — so every occupied seat ends the very same step
in status `playing` with a fresh (empty) played-cards store: a new deal begins
with no intermediate stall. -/
theorem nextRound_rearms_and_redeals (deck : List Card) (s : State)
    (h2 : 2 ≤ (summaryRoomsL s).length)
    (hall : (summaryRoomsL s).all
      (fun pr => (lookupA pr.2 s.readyForNextGame).getD false) = true) :
    (∀ rid : RoomId, (s.rooms.get rid).status = Status.summary →
        (s.rooms.get rid).player ≠ none →
        (rearmState s).rooms.get rid =
          { s.rooms.get rid with status := Status.ready, isReady := true })
    ∧ (rearmState s).playedCards = []
    ∧ (∀ k : String, (lookupA k (rearmState s).readyForNextGame).getD false = false)
    ∧ checkAllPlayersReadyForNextGame deck s =
        ((checkAndStartGame deck (rearmState s)).1,
          (Audience.toAll, Emit.roomsUpdate (mapRooms rearmRoom s.rooms)) ::
            (checkAndStartGame deck (rearmState s)).2)
    ∧ (1 ≤ (readyRooms (rearmState s)).length ∧
        2 ≤ (roomsWithPlayers (rearmState s)).length)
    ∧ (∀ rid : RoomId, (s.rooms.get rid).player ≠ none →
        ((checkAllPlayersReadyForNextGame deck s).1.rooms.get rid).status = Status.playing)
    ∧ (checkAllPlayersReadyForNextGame deck s).1.playedCards = [] := by
  have hcond : 1 ≤ (readyRooms (rearmState s)).length ∧
      2 ≤ (roomsWithPlayers (rearmState s)).length := by
    have ha := summary_le_ready_after_rearm s
    have hb := summary_le_players_after_rearm s
    omega
  have heq : checkAllPlayersReadyForNextGame deck s =
      ((checkAndStartGame deck (rearmState s)).1,
        (Audience.toAll, Emit.roomsUpdate (mapRooms rearmRoom s.rooms)) ::
          (checkAndStartGame deck (rearmState s)).2) := by
    unfold checkAllPlayersReadyForNextGame
    rw [if_pos ⟨h2, hall⟩]
  have hfired : (checkAndStartGame deck (rearmState s)).1.rooms =
        mapRooms setPlaying (rearmState s).rooms
      ∧ (checkAndStartGame deck (rearmState s)).1.playedCards = [] := by
    unfold checkAndStartGame
    rw [if_pos hcond]
    exact ⟨rfl, rfl⟩
  refine ⟨?_, rfl, ?_, heq, hcond, ?_, ?_⟩
  · intro rid hsum hocc
    rw [show (rearmState s).rooms = mapRooms rearmRoom s.rooms from rfl,
      Rooms.get_mapRooms]
    unfold rearmRoom
    rw [if_pos ⟨hsum, hocc⟩]
  · intro k
    exact lookupA_map_false k s.readyForNextGame
  · intro rid hocc
    rw [heq]
    show ((checkAndStartGame deck (rearmState s)).1.rooms.get rid).status = Status.playing
    rw [hfired.1, Rooms.get_mapRooms]
    have hp : ((rearmState s).rooms.get rid).player ≠ none := by
      rw [show (rearmState s).rooms = mapRooms rearmRoom s.rooms from rfl,
        Rooms.get_mapRooms, rearmRoom_player]
      exact hocc
    unfold setPlaying
    rw [if_pos hp]
  · rw [heq]
    exact hfired.2

/-- A concrete state ready for the next-round transition: seats 1 and 2 are
occupied `summary` seats whose occupants are both flagged ready. -/
def nextRoundState : State :=
  { rooms := ⟨{ player := some "a", isReady := false, status := Status.summary },
              { player := some "b", isReady := false, status := Status.summary },
              emptyRoom, emptyRoom⟩,
    playedCards := [],
    readyForNextGame := [("a", true), ("b", true)],
    playerPoints := ⟨0, 0, 0, 0⟩,
    transactions := [] }

/-- Witness for C7 at `nextRoundState`. -/
theorem nextRound_rearms_and_redeals_witness :
    (∀ rid : RoomId, (nextRoundState.rooms.get rid).status = Status.summary →
        (nextRoundState.rooms.get rid).player ≠ none →
        (rearmState nextRoundState).rooms.get rid =
          { nextRoundState.rooms.get rid with status := Status.ready, isReady := true })
    ∧ (rearmState nextRoundState).playedCards = []
    ∧ (∀ k : String,
        (lookupA k (rearmState nextRoundState).readyForNextGame).getD false = false)
    ∧ checkAllPlayersReadyForNextGame [] nextRoundState =
        ((checkAndStartGame [] (rearmState nextRoundState)).1,
          (Audience.toAll, Emit.roomsUpdate (mapRooms rearmRoom nextRoundState.rooms)) ::
            (checkAndStartGame [] (rearmState nextRoundState)).2)
    ∧ (1 ≤ (readyRooms (rearmState nextRoundState)).length ∧
        2 ≤ (roomsWithPlayers (rearmState nextRoundState)).length)
    ∧ (∀ rid : RoomId, (nextRoundState.rooms.get rid).player ≠ none →
        ((checkAllPlayersReadyForNextGame [] nextRoundState).1.rooms.get rid).status =
          Status.playing)
    ∧ (checkAllPlayersReadyForNextGame [] nextRoundState).1.playedCards = [] :=
  nextRound_rearms_and_redeals [] nextRoundState (by decide) (by decide)

/-! ## Claim C6: the summarize gate, over reachable states

The handler only inspects `playing` rooms that also have a player.  To state
the claim over all `playing` seats we first prove the reachability invariant
that a seat with no occupant is always in status `empty`. -/

def RoomOk (r : Room) : Prop := r.player = none → r.status = Status.empty

def RoomsOk (rs : Rooms) : Prop := ∀ rid : RoomId, RoomOk (rs.get rid)

def StateOk (s : State) : Prop := RoomsOk s.rooms

theorem roomOk_resetIfOwned (c : String) (r : Room) (h : RoomOk r) :
    RoomOk (resetIfOwned c r) := by
  unfold resetIfOwned
  split
  · intro _; rfl
  · exact h

theorem roomOk_setPlaying (r : Room) (h : RoomOk r) : RoomOk (setPlaying r) := by
  unfold setPlaying
  split
  · intro hn; next hne => exact absurd hn hne
  · exact h

theorem roomOk_summarizeRoom (r : Room) (h : RoomOk r) : RoomOk (summarizeRoom r) := by
  unfold summarizeRoom
  split
  · intro hn; next hne => exact absurd hn hne.2
  · exact h

theorem roomOk_rearmRoom (r : Room) (h : RoomOk r) : RoomOk (rearmRoom r) := by
  unfold rearmRoom
  split
  · intro hn; next hne => exact absurd hn hne.2
  · exact h

theorem roomsOk_mapRooms {f : Room → Room} (hf : ∀ r, RoomOk r → RoomOk (f r))
    {rs : Rooms} (h : RoomsOk rs) : RoomsOk (mapRooms f rs) := by
  intro rid
  rw [Rooms.get_mapRooms]
  exact hf _ (h rid)

theorem roomsOk_set {rs : Rooms} (h : RoomsOk rs) (rid : RoomId) {r : Room}
    (hr : RoomOk r) : RoomsOk (rs.set rid r) := by
  intro rid'
  rw [Rooms.get_set]
  split
  · exact hr
  · exact h rid'

theorem stateOk_checkAndStartGame (deck : List Card) (s : State) (h : StateOk s) :
    StateOk (checkAndStartGame deck s).1 := by
  unfold checkAndStartGame
  split
  · exact roomsOk_mapRooms roomOk_setPlaying h
  · exact h

theorem stateOk_checkAllPlayersConfirmed (s : State) (h : StateOk s) :
    StateOk (checkAllPlayersConfirmed s).1 := by
  unfold checkAllPlayersConfirmed
  split
  · exact roomsOk_mapRooms roomOk_summarizeRoom h
  · exact h

theorem stateOk_rearmState (s : State) (h : StateOk s) : StateOk (rearmState s) :=
  roomsOk_mapRooms roomOk_rearmRoom h

theorem stateOk_checkAllPlayersReadyForNextGame (deck : List Card) (s : State)
    (h : StateOk s) : StateOk (checkAllPlayersReadyForNextGame deck s).1 := by
  unfold checkAllPlayersReadyForNextGame
  split
  · exact stateOk_checkAndStartGame deck (rearmState s) (stateOk_rearmState s h)
  · exact h

theorem stateOk_step (e : Event) (s : State) (h : StateOk s) : StateOk (step e s).1 := by
  cases e with
  | join c rid =>
    show StateOk (joinRoom c rid s).1
    unfold joinRoom
    split
    · exact h
    · exact roomsOk_set (roomsOk_mapRooms (roomOk_resetIfOwned c) h) rid
        (fun hn => by cases hn)
  | toggle c rid deck =>
    show StateOk (toggleReady c rid deck s).1
    unfold toggleReady
    split
    · next hown =>
      apply stateOk_checkAndStartGame
      exact roomsOk_set h rid (fun hn => by rw [hn] at hown; cases hown)
    · exact h
  | confirm c rid cards cc =>
    show StateOk (confirmCards c rid cards cc s).1
    unfold confirmCards
    split
    · exact stateOk_checkAllPlayersConfirmed _ h
    · exact h
  | readyNext c rid deck =>
    show StateOk (readyForNextGameEvent c rid deck s).1
    unfold readyForNextGameEvent
    split
    · exact stateOk_checkAllPlayersReadyForNextGame deck _ h
    · exact h
  | transfer c fr toR amt now =>
    show StateOk (transferPoints c fr toR amt now s).1
    unfold transferPoints
    split
    · exact h
    · split
      · exact h
      · split
        · exact h
        · split
          · exact h
          · exact h
  | disc c =>
    show StateOk (disconnect c s).1
    exact roomsOk_mapRooms (roomOk_resetIfOwned c) h

theorem stateOk_of_reachable {s : State} (h : Reachable s) : StateOk s := by
  induction h with
  | init => intro rid; cases rid <;> exact fun _ => rfl
  | next e _ ih => exact stateOk_step e _ ih

/-- The seats whose status is `playing` (the claim's notion, with no
occupancy requirement). -/
def playingSeats (s : State) : List (RoomId × Room) :=
  s.rooms.entries.filter (fun e => decide (e.2.status = Status.playing))

/-- Claim C6: in every reachable state, the summarize transition fires only if
at least two seats are in status `playing` and every such seat's occupant has a
stored `PlayedCard` with `confirmed = true`. -/
theorem summarize_gate (s : State) (hreach : Reachable s)
    (hfire : checkAllPlayersConfirmed s ≠ (s, [])) :
    2 ≤ (playingSeats s).length
    ∧ ∀ e ∈ playingSeats s, ∃ pid pc, e.2.player = some pid ∧
        lookupA pid s.playedCards = some pc ∧ pc.confirmed = true := by
  have hok : StateOk s := stateOk_of_reachable hreach
  have hcond : (playingRoomsL s).all
        (fun pr => ((lookupA pr.2 s.playedCards).map PlayedCard.confirmed).getD false) = true
      ∧ 2 ≤ (playingRoomsL s).length := by
    by_contra h
    exact hfire (by unfold checkAllPlayersConfirmed; rw [if_neg h])
  have hfilter : s.rooms.entries.filter
        (fun e => decide (e.2.status = Status.playing ∧ e.2.player ≠ none)) =
      playingSeats s := by
    unfold playingSeats
    apply List.filter_congr
    intro e he
    have hrOk : RoomOk e.2 := by
      rw [Rooms.eq_get_of_mem_entries s.rooms e he]
      exact hok e.1
    by_cases hA : e.2.status = Status.playing
    · have hB : e.2.player ≠ none := by
        intro hq
        have := hrOk hq
        rw [hA] at this
        cases this
      simp [hA, hB]
    · simp [hA]
  have hmem : ∀ e ∈ playingSeats s, e.2.status = Status.playing ∧ e.2.player ≠ none := by
    intro e he
    rw [← hfilter] at he
    have := List.of_mem_filter he
    simpa using this
  constructor
  · have : (playingRoomsL s).length = (playingSeats s).length := by
      unfold playingRoomsL
      rw [hfilter, List.length_map]
    omega
  · intro e he
    obtain ⟨hst, hpl⟩ := hmem e he
    obtain ⟨pid, hpid⟩ := Option.ne_none_iff_exists'.mp hpl
    refine ⟨pid, ?_⟩
    have hin : (e.1, pid) ∈ playingRoomsL s := by
      unfold playingRoomsL
      rw [hfilter]
      have : (e.1, e.2.player.getD "") ∈ (playingSeats s).map
          (fun e => (e.1, e.2.player.getD "")) := List.mem_map_of_mem _ he
      simpa [hpid] using this
    have hall := List.all_eq_true.mp hcond.1 (e.1, pid) hin
    simp only [decide_eq_true_eq] at hall
    cases hlk : lookupA pid s.playedCards with
    | none => rw [hlk] at hall; simp at hall
    | some pc =>
      rw [hlk] at hall
      simp at hall
      exact ⟨pc, hpid, rfl, hall⟩

/-- Events building a reachable state in which the summarize condition holds:
three players join and one readies (dealing starts for all three), two of the
three confirm, then the third disconnects. -/
def traceEvents : List Event :=
  [Event.join "a" RoomId.room1, Event.join "b" RoomId.room2, Event.join "c" RoomId.room3,
   Event.toggle "a" RoomId.room1 [],
   Event.confirm "a" RoomId.room1 ⟨[], [], []⟩ none,
   Event.confirm "b" RoomId.room2 ⟨[], [], []⟩ none,
   Event.disc "c"]

def runEvents : List Event → State → State
  | [], s => s
  | e :: rest, s => runEvents rest (step e s).1

theorem reachable_runEvents (evs : List Event) (s : State) (h : Reachable s) :
    Reachable (runEvents evs s) := by
  induction evs generalizing s with
  | nil => exact h
  | cons e rest ih => exact ih (step e s).1 (Reachable.next e h)

/-- The reachable state left by `traceEvents`: two confirmed `playing` seats. -/
def stalledState : State := runEvents traceEvents initialState

/-- Witness for C6 at the reachable state `stalledState`, where the summarize
condition genuinely fires. -/
theorem summarize_gate_witness :
    2 ≤ (playingSeats stalledState).length
    ∧ ∀ e ∈ playingSeats stalledState, ∃ pid pc, e.2.player = some pid ∧
        lookupA pid stalledState.playedCards = some pc ∧ pc.confirmed = true :=
  summarize_gate stalledState
    (reachable_runEvents traceEvents initialState Reachable.init) (by decide)

end ThirteenCards

